import Mathlib

/-!
Shallow embedding of the `dentalink` Python client library
(`src/dentalink/query.py`, `src/dentalink/client.py`,
`src/dentalink/exceptions.py`) and proofs about it.

Conventions of the embedding:
* Python `datetime` objects are modelled by the `Datetime` structure below,
  and `datetime.strftime` by `Datetime.strftime`, covering the `%Y %m %d
  %H %M %S` directives used by the library plus literal passthrough.
* Python `Optional` arguments become `Option`; Python exceptions become
  `Except` results (for the query factory) or an explicit outcome type
  (for the HTTP client).
* Python `dict` (insertion ordered, unique keys) is modelled by an
  association list; assignment to an existing key replaces the value in
  place (`dictSet`), matching CPython's ordering semantics.
* Values passed to query operators are modelled by `QValue` (int, str,
  bool, datetime).  `float` arguments are outside the model: no property
  below concerns floating point.
-/

namespace Dentalink

/-- Model of a Python `datetime.datetime` (the fields the library formats). -/
structure Datetime where
  year : Nat
  month : Nat
  day : Nat
  hour : Nat
  minute : Nat
  second : Nat
deriving DecidableEq, Repr

/-- Zero-pad the decimal representation of `n` to `width` characters,
as `strftime`'s numeric directives do. -/
def zeroPad (width : Nat) (n : Nat) : String :=
  let s := toString n
  String.mk (List.replicate (width - s.length) '0') ++ s

/-- One `strftime` directive (`%Y`, `%m`, `%d`, `%H`, `%M`, `%S`, `%%`).
Directives the library never uses are passed through verbatim. -/
def strftimeDirective (d : Datetime) (c : Char) : String :=
  if c = 'Y' then zeroPad 4 d.year
  else if c = 'm' then zeroPad 2 d.month
  else if c = 'd' then zeroPad 2 d.day
  else if c = 'H' then zeroPad 2 d.hour
  else if c = 'M' then zeroPad 2 d.minute
  else if c = 'S' then zeroPad 2 d.second
  else if c = '%' then "%"
  else String.mk ['%', c]

/-- Worker for `Datetime.strftime` over the format's character list. -/
def strftimeAux (d : Datetime) : List Char → List Char
  | [] => []
  | '%' :: c :: rest => (strftimeDirective d c).data ++ strftimeAux d rest
  | c :: rest => c :: strftimeAux d rest

/-- Model of `datetime.strftime(fmt)`. -/
def Datetime.strftime (d : Datetime) (fmt : String) : String :=
  String.mk (strftimeAux d fmt.data)

/-- A value passed to a query operator
(`Union[int, float, datetime, bool, str]` in the source; `float` is not
modelled, see the header comment). -/
inductive QValue where
  | int : Int → QValue
  | str : String → QValue
  | bool : Bool → QValue
  | dt : Datetime → QValue
deriving DecidableEq, Repr

/-- Model of `dentalink.exceptions.DentalinkClientQueryError`. -/
structure DentalinkClientQueryError where
  message : String
deriving DecidableEq, Repr

/-- Python `dict` subscription `m[k]` on an insertion-ordered dict
modelled as an association list (`none` models a `KeyError`). -/
def dictGet {α : Type} (m : List (String × α)) (k : String) : Option α :=
  match m with
  | [] => none
  | (k', v) :: t => if k' = k then some v else dictGet t k

/-- Python `dict` assignment `m[k] = v` on an insertion-ordered dict
modelled as an association list: an existing key keeps its position and
gets the new value, a new key is appended at the end. -/
def dictSet {α : Type} (m : List (String × α)) (k : String) (v : α) :
    List (String × α) :=
  if m.any (fun p => p.1 = k) then
    m.map (fun p => if p.1 = k then (k, v) else p)
  else
    m ++ [(k, v)]

/-- Python `m[k].append(e)` on a dict of lists: append `e` to the list
stored under `k` (no-op if the key is absent; the library only calls this
with a present key). -/
def dictAppend {α : Type} (m : List (String × List α)) (k : String) (e : α) :
    List (String × List α) :=
  m.map (fun p => if p.1 = k then (p.1, p.2 ++ [e]) else p)

/-- Model of the state of `dentalink.query.DentalinkQueryFactory`:
the insertion-ordered mapping `self._query` from field name to recorded
filter entries (each entry a one-key dict `{operator: value}` modelled as
a pair), and the current-field cursor `self._last_field`. -/
structure DentalinkQueryFactory where
  _query : List (String × List (String × String))
  _last_field : Option String
deriving DecidableEq, Repr

namespace DentalinkQueryFactory

/-- Model of `DentalinkQueryFactory._cast_value_to_str`. -/
def _cast_value_to_str (value : QValue) (dt_format : Option String) :
    Except DentalinkClientQueryError String :=
  match value with
  | .dt d =>
    match dt_format with
    | none =>
      .error ⟨"Debes proporcionar un formato si el valor es un datetime"⟩
    | some fmt => .ok (d.strftime fmt)
  | .bool b => .ok (if b then "1" else "0")
  | .int n => .ok (toString n)
  | .str s => .ok s

/-- Model of `DentalinkQueryFactory._set_field`. -/
def _set_field (s : DentalinkQueryFactory) (f : String) :
    DentalinkQueryFactory :=
  { _query := dictSet s._query f [], _last_field := some f }

/-- Model of `DentalinkQueryFactory.__init__(field)`.  Python's `if field:`
is truthiness: `None` and the empty string both skip `_set_field`. -/
def init (field0 : Option String) : DentalinkQueryFactory :=
  match field0 with
  | some f =>
    if f ≠ "" then _set_field ⟨[], none⟩ f else ⟨[], none⟩
  | none => ⟨[], none⟩

/-- Model of `DentalinkQueryFactory._add_filter`.  The source checks the
cursor first (raising if none), then silently ignores a `None` value, then
appends the stringified entry to the current field's list. -/
def _add_filter (s : DentalinkQueryFactory) (name : String)
    (value : Option QValue) (dt_format : String) :
    Except DentalinkClientQueryError DentalinkQueryFactory :=
  match s._last_field with
  | none =>
    .error
      ⟨"Debes establecer un campo usando .field() antes de agregar un filtro"⟩
  | some lf =>
    match value with
    | none => .ok s
    | some v => do
      let sv ← _cast_value_to_str v (some dt_format)
      .ok { s with _query := dictAppend s._query lf (name, sv) }

/-- Model of `DentalinkQueryFactory.field`. -/
def field (s : DentalinkQueryFactory) (field_name : String) :
    DentalinkQueryFactory :=
  if s._last_field = some field_name then s else s._set_field field_name

/-- Model of `DentalinkQueryFactory.eq`. -/
def eq (s : DentalinkQueryFactory) (value : Option QValue)
    (dt_format : String) : Except DentalinkClientQueryError DentalinkQueryFactory :=
  s._add_filter "eq" value dt_format

/-- Model of `DentalinkQueryFactory.neq`. -/
def neq (s : DentalinkQueryFactory) (value : Option QValue)
    (dt_format : String) : Except DentalinkClientQueryError DentalinkQueryFactory :=
  s._add_filter "neq" value dt_format

/-- Model of `DentalinkQueryFactory.gt`. -/
def gt (s : DentalinkQueryFactory) (value : Option QValue)
    (dt_format : String) : Except DentalinkClientQueryError DentalinkQueryFactory :=
  s._add_filter "gt" value dt_format

/-- Model of `DentalinkQueryFactory.gte`. -/
def gte (s : DentalinkQueryFactory) (value : Option QValue)
    (dt_format : String) : Except DentalinkClientQueryError DentalinkQueryFactory :=
  s._add_filter "gte" value dt_format

/-- Model of `DentalinkQueryFactory.lt`. -/
def lt (s : DentalinkQueryFactory) (value : Option QValue)
    (dt_format : String) : Except DentalinkClientQueryError DentalinkQueryFactory :=
  s._add_filter "lt" value dt_format

/-- Model of `DentalinkQueryFactory.lte`. -/
def lte (s : DentalinkQueryFactory) (value : Option QValue)
    (dt_format : String) : Except DentalinkClientQueryError DentalinkQueryFactory :=
  s._add_filter "lte" value dt_format

/-- Model of `DentalinkQueryFactory.lk`. -/
def lk (s : DentalinkQueryFactory) (value : Option QValue)
    (dt_format : String) : Except DentalinkClientQueryError DentalinkQueryFactory :=
  s._add_filter "lk" value dt_format

end DentalinkQueryFactory

/-- A value of the dictionary `parse` returns: a bare single-operator
object for a one-entry list, or the list of entry objects itself. -/
inductive ParsedValue where
  | single : String × String → ParsedValue
  | list : List (String × String) → ParsedValue
deriving DecidableEq, Repr

namespace DentalinkQueryFactory

/-- Model of `DentalinkQueryFactory.parse`: error when no field was ever
configured, otherwise the comprehension
`{key: value[0] if len(value) == 1 else value for ... if len(value) > 0}`. -/
def parse (s : DentalinkQueryFactory) :
    Except DentalinkClientQueryError (List (String × ParsedValue)) :=
  if s._query.length = 0 then
    .error ⟨"No se ha proporcionado ningún campo para crear la consulta"⟩
  else
    .ok (s._query.filterMap fun kv =>
      match kv.2 with
      | [] => none
      | [e] => some (kv.1, .single e)
      | es => some (kv.1, .list es))

end DentalinkQueryFactory

/-! ### The HTTP client (`src/dentalink/client.py`) -/

/-- A JSON value, as decoded by `response.json()`. -/
inductive Json where
  | null : Json
  | bool : Bool → Json
  | num : Int → Json
  | str : String → Json
  | arr : List Json → Json
  | obj : List (String × Json) → Json

/-- Python subscription `j[k]`: `none` models the uncaught `KeyError`
(missing key) or `TypeError` (non-dict) the source would raise. -/
def Json.getItem (j : Json) (k : String) : Option Json :=
  match j with
  | .obj kvs => dictGet kvs k
  | _ => none

/-- The observable part of an HTTP response as `_request` consumes it:
the status code, the raw body text, and the decoded JSON body when the
body decodes (`none` models `response.json()` raising `JSONDecodeError`). -/
structure HttpResponse where
  status_code : Nat
  text : String
  json : Option Json

/-- Outcome of `DentalinkClient._request`'s response handling:
a decoded body, a raised `DentalinkClientHTTPException(code, message)`
(we record the constructor arguments; the exception formats them as
`[HTTP code] message` and stores `code`), a `JSONDecodeError` escaping
from `response.json()` on a 200 response, or a `KeyError`/`TypeError`
escaping from `parsed["error"]["message"]`. -/
inductive RequestOutcome where
  | ok : Json → RequestOutcome
  | httpException : Nat → Json → RequestOutcome
  | jsonDecodeError : RequestOutcome
  | uncaughtKeyError : RequestOutcome

/-- Model of the response-handling part of `DentalinkClient._request`
(`client.py` lines 91–103). -/
def _request (response : HttpResponse) : RequestOutcome :=
  if response.status_code ≠ 200 then
    match response.json with
    | none =>
      .httpException response.status_code
        (.str ("Error inesperado: " ++ response.text))
    | some parsed =>
      match (parsed.getItem "error").bind (fun e => e.getItem "message") with
      | some m => .httpException response.status_code m
      | none => .uncaughtKeyError
  else
    match response.json with
    | some j => .ok j
    | none => .jsonDecodeError

/-- A value stored in the PUT request body of `actualizar_cita_segun_id`
(`dict[str, Union[int, str, bool]]` in the source). -/
inductive BodyValue where
  | int : Int → BodyValue
  | str : String → BodyValue
  | bool : Bool → BodyValue
deriving DecidableEq, Repr

/-- Model of the body construction in
`DentalinkClient.actualizar_cita_segun_id`: each key is added exactly when
the Python argument is truthy (`if duracion:` …), and
`flag_notificar_anulacion` is stored as the literal `True`. -/
def actualizar_cita_data (duracion : Option Int) (id_estado : Option Int)
    (comentarios : Option String) (flag_notificar_anulacion : Option Bool) :
    List (String × BodyValue) :=
  (match duracion with
   | some n => if n ≠ 0 then [("duracion", BodyValue.int n)] else []
   | none => []) ++
  (match id_estado with
   | some n => if n ≠ 0 then [("id_estado", BodyValue.int n)] else []
   | none => []) ++
  (match comentarios with
   | some c => if c ≠ "" then [("comentarios", BodyValue.str c)] else []
   | none => []) ++
  (match flag_notificar_anulacion with
   | some b => if b then [("flag_notificar_anulacion", BodyValue.bool true)] else []
   | none => [])

/-- Model of `DentalinkClient.__make_uri`.  The encoding of a non-empty
query — `urllib.parse.quote(json.dumps(query), safe=...)` in the source —
is kept abstract as the parameter `encode`, since no property below
depends on the encoded text itself, only on when it is appended. -/
def make_uri (encode : List (String × ParsedValue) → String)
    (url endpoint : String)
    (query : Option (List (String × ParsedValue))) : String :=
  match query with
  | none => url ++ endpoint
  | some q =>
    if q.length = 0 then url ++ endpoint
    else url ++ endpoint ++ "?q=" ++ encode q

/-- The query-builder chain of `DentalinkClient.obtener_citas`
(`client.py` lines 130–138), with the Python default
`dt_format="%Y-%m-%d"` spelled out. -/
def obtener_citas_query (start_date end_date : Option Datetime)
    (id_sucursal id_estado : Option Int) :
    Except DentalinkClientQueryError DentalinkQueryFactory := do
  let q := DentalinkQueryFactory.init (some "fecha")
  let q ← q.gte (start_date.map QValue.dt) "%Y-%m-%d"
  let q ← q.lte (end_date.map QValue.dt) "%Y-%m-%d"
  let q := q.field "id_sucursal"
  let q ← q.eq (id_sucursal.map QValue.int) "%Y-%m-%d"
  let q := q.field "id_estado"
  let q ← q.eq (id_estado.map QValue.int) "%Y-%m-%d"
  pure q

/-- The query-builder chain of `DentalinkClient.obtener_estados_de_cita`
(`client.py` lines 173–184). -/
def obtener_estados_de_cita_query (nombre : Option String)
    (reservado anulacion uso_interno habilitado : Option Bool) :
    Except DentalinkClientQueryError DentalinkQueryFactory := do
  let q := DentalinkQueryFactory.init (some "nombre")
  let q ← q.eq (nombre.map QValue.str) "%Y-%m-%d"
  let q := q.field "reservado"
  let q ← q.eq (reservado.map QValue.bool) "%Y-%m-%d"
  let q := q.field "anulacion"
  let q ← q.eq (anulacion.map QValue.bool) "%Y-%m-%d"
  let q := q.field "uso_interno"
  let q ← q.eq (uso_interno.map QValue.bool) "%Y-%m-%d"
  let q := q.field "habilitado"
  let q ← q.eq (habilitado.map QValue.bool) "%Y-%m-%d"
  pure q

/-- The query-builder chain of `DentalinkClient.obtener_sucursales`
(`client.py` line 211). -/
def obtener_sucursales_query (nombre : Option String)
    (habilitada : Option Bool) :
    Except DentalinkClientQueryError DentalinkQueryFactory := do
  let q := DentalinkQueryFactory.init (some "nombre")
  let q ← q.eq (nombre.map QValue.str) "%Y-%m-%d"
  let q := q.field "habilitada"
  let q ← q.eq (habilitada.map QValue.bool) "%Y-%m-%d"
  pure q

/-! ### Concrete chains used by the claims -/

/-- The end-to-end example chain of C1:
`field("foo").eq(3).field("bar").gt(1).lt(3).field("now").eq(datetime(2023,11,12))`
followed by `parse()` (operator calls use the Python default
`dt_format="%Y-%m-%d"`). -/
def c1_example :
    Except DentalinkClientQueryError (List (String × ParsedValue)) := do
  let q := (DentalinkQueryFactory.init none).field "foo"
  let q ← q.eq (some (QValue.int 3)) "%Y-%m-%d"
  let q := q.field "bar"
  let q ← q.gt (some (QValue.int 1)) "%Y-%m-%d"
  let q ← q.lt (some (QValue.int 3)) "%Y-%m-%d"
  let q := q.field "now"
  let q ← q.eq (some (QValue.dt ⟨2023, 11, 12, 0, 0, 0⟩)) "%Y-%m-%d"
  q.parse

/-- Chain for C3: `field("foo").eq(1).field("foo").eq(2)` — re-selecting
the currently-active field between two operator calls. -/
def c3_reselect_same : Except DentalinkClientQueryError DentalinkQueryFactory := do
  let q := (DentalinkQueryFactory.init none).field "foo"
  let q ← q.eq (some (QValue.int 1)) "%Y-%m-%d"
  let q := q.field "foo"
  q.eq (some (QValue.int 2)) "%Y-%m-%d"

/-- Chain for C3: `field("foo").eq(1).eq(2)` — the same two operator
calls without the re-selection. -/
def c3_add_twice : Except DentalinkClientQueryError DentalinkQueryFactory := do
  let q := (DentalinkQueryFactory.init none).field "foo"
  let q ← q.eq (some (QValue.int 1)) "%Y-%m-%d"
  q.eq (some (QValue.int 2)) "%Y-%m-%d"

/-- Chain for C3: `field("foo").eq(1).field("bar").eq(2).field("foo")`
then `parse()` — re-selecting a previously-filled, not-current field. -/
def c3_reselect_drop :
    Except DentalinkClientQueryError (List (String × ParsedValue)) := do
  let q := (DentalinkQueryFactory.init none).field "foo"
  let q ← q.eq (some (QValue.int 1)) "%Y-%m-%d"
  let q := q.field "bar"
  let q ← q.eq (some (QValue.int 2)) "%Y-%m-%d"
  let q := q.field "foo"
  q.parse



/-! ### Helper lemmas -/

theorem dictGet_eq_none_of_any_false {α : Type} {m : List (String × α)}
    {k : String} (h : m.any (fun p => p.1 = k) = false) : dictGet m k = none := by
  induction m with
  | nil => rfl
  | cons p t ih =>
    simp only [List.any_cons, Bool.or_eq_false_iff, decide_eq_false_iff_not] at h
    obtain ⟨p1, p2⟩ := p
    simp [dictGet, h.1, ih h.2]

theorem dictGet_append_of_none {α : Type} {m : List (String × α)} {k : String}
    (h : dictGet m k = none) (l : List (String × α)) :
    dictGet (m ++ l) k = dictGet l k := by
  induction m with
  | nil => rfl
  | cons p t ih =>
    obtain ⟨p1, p2⟩ := p
    by_cases hp : p1 = k
    · simp [dictGet, hp] at h
    · simp only [dictGet, hp, if_false, List.cons_append] at h ⊢
      exact ih h

theorem dictGet_map_set {α : Type} {m : List (String × α)} {k : String} {v : α}
    (h : m.any (fun p => p.1 = k) = true) :
    dictGet (m.map (fun p => if p.1 = k then (k, v) else p)) k = some v := by
  induction m with
  | nil => simp at h
  | cons p t ih =>
    simp only [List.any_cons, Bool.or_eq_true, decide_eq_true_eq] at h
    obtain ⟨p1, p2⟩ := p
    by_cases hp : p1 = k
    · simp only [List.map_cons]
      rw [if_pos hp]
      simp [dictGet]
    · have ht : t.any (fun p => p.1 = k) = true := h.resolve_left hp
      simp only [List.map_cons]
      rw [if_neg hp]
      simp only [dictGet]
      rw [if_neg hp]
      exact ih ht

theorem dictGet_dictSet_self {α : Type} (m : List (String × α)) (k : String)
    (v : α) : dictGet (dictSet m k v) k = some v := by
  unfold dictSet
  cases h : m.any (fun p => p.1 = k) with
  | true => simp only [if_true]; exact dictGet_map_set h
  | false =>
    simp only [Bool.false_eq_true, if_false]
    rw [dictGet_append_of_none (dictGet_eq_none_of_any_false h)]
    simp [dictGet]

theorem keys_nodup_val_eq {α : Type} {l : List (String × α)}
    (h : (l.map Prod.fst).Nodup) {k : String} {a b : α}
    (ha : (k, a) ∈ l) (hb : (k, b) ∈ l) : a = b := by
  induction l with
  | nil => simp at ha
  | cons p t ih =>
    simp only [List.map_cons, List.nodup_cons] at h
    have hmem : ∀ {c : α}, (k, c) ∈ t → k ∈ t.map Prod.fst :=
      fun hc => List.mem_map.mpr ⟨_, hc, rfl⟩
    rcases List.mem_cons.mp ha with ha' | ha' <;>
      rcases List.mem_cons.mp hb with hb' | hb'
    · exact congrArg Prod.snd (ha'.trans hb'.symm)
    · exfalso
      apply h.1
      have hpk : p.1 = k := by rw [← ha']
      rw [hpk]
      exact hmem hb'
    · exfalso
      apply h.1
      have hpk : p.1 = k := by rw [← hb']
      rw [hpk]
      exact hmem ha'
    · exact ih h.2 ha' hb'

theorem parse_ok_eq {s : DentalinkQueryFactory}
    {out : List (String × ParsedValue)} (hp : s.parse = .ok out) :
    out = s._query.filterMap fun kv =>
      match kv.2 with
      | [] => none
      | [e] => some (kv.1, ParsedValue.single e)
      | es => some (kv.1, ParsedValue.list es) := by
  by_cases hq : s._query.length = 0
  · simp [DentalinkQueryFactory.parse, hq] at hp
  · simp only [DentalinkQueryFactory.parse, if_neg hq, Except.ok.injEq] at hp
    exact hp.symm

/-! ### The claims -/

/-- C1: the end-to-end example chain serializes exactly as documented, and
in general a field with exactly one recorded entry serializes as a bare
single-operator object while a field with several entries serializes as
the list of its entries in recorded order. -/
theorem claim_C1 :
    c1_example =
      .ok [("foo", ParsedValue.single ("eq", "3")),
           ("bar", ParsedValue.list [("gt", "1"), ("lt", "3")]),
           ("now", ParsedValue.single ("eq", "2023-11-12"))] ∧
    (∀ (s : DentalinkQueryFactory) (out : List (String × ParsedValue))
        (k : String) (e : String × String),
      s.parse = .ok out → (k, [e]) ∈ s._query →
      (k, ParsedValue.single e) ∈ out) ∧
    (∀ (s : DentalinkQueryFactory) (out : List (String × ParsedValue))
        (k : String) (es : List (String × String)),
      s.parse = .ok out → (k, es) ∈ s._query → 2 ≤ es.length →
      (k, ParsedValue.list es) ∈ out) := by
  refine ⟨rfl, ?_, ?_⟩
  · intro s out k e hp hm
    rw [parse_ok_eq hp]
    exact List.mem_filterMap.mpr ⟨(k, [e]), hm, rfl⟩
  · intro s out k es hp hm hlen
    rcases es with _ | ⟨a, _ | ⟨b, t⟩⟩
    · simp at hlen
    · simp at hlen
    · rw [parse_ok_eq hp]
      exact List.mem_filterMap.mpr ⟨(k, a :: b :: t), hm, rfl⟩

theorem claim_C1_witness :
    ("foo", ParsedValue.single ("eq", "3")) ∈
      [("foo", ParsedValue.single ("eq", "3"))] ∧
    ("bar", ParsedValue.list [("gt", "1"), ("lt", "3")]) ∈
      [("bar", ParsedValue.list [("gt", "1"), ("lt", "3")])] :=
  ⟨claim_C1.2.1 ⟨[("foo", [("eq", "3")])], some "foo"⟩ _ "foo" ("eq", "3")
      rfl (by simp),
   claim_C1.2.2 ⟨[("bar", [("gt", "1"), ("lt", "3")])], some "bar"⟩ _ "bar"
      [("gt", "1"), ("lt", "3")] rfl (by simp) (by simp)⟩

/-- C2: `parse` fails with the query usage error exactly when no field was
ever selected (the internal mapping is empty); selecting a field and
calling no operators serializes to the empty mapping; any field whose
filter list is empty is dropped from a successful serialization. -/
theorem claim_C2 :
    (∀ s : DentalinkQueryFactory,
      s.parse =
          .error ⟨"No se ha proporcionado ningún campo para crear la consulta"⟩ ↔
        s._query = []) ∧
    (∀ f : String, ((DentalinkQueryFactory.init none).field f).parse = .ok []) ∧
    (∀ (s : DentalinkQueryFactory) (out : List (String × ParsedValue))
        (k : String),
      s.parse = .ok out → (s._query.map Prod.fst).Nodup →
      (k, []) ∈ s._query → k ∉ out.map Prod.fst) := by
  refine ⟨?_, fun f => rfl, ?_⟩
  · intro s
    constructor
    · intro h
      by_cases hq : s._query.length = 0
      · exact List.length_eq_zero.mp hq
      · simp [DentalinkQueryFactory.parse, hq] at h
    · intro h
      simp [DentalinkQueryFactory.parse, h]
  · intro s out k hp hnd hmem hk
    rw [parse_ok_eq hp] at hk
    rcases List.mem_map.mp hk with ⟨q, hq, hq1⟩
    rcases List.mem_filterMap.mp hq with ⟨a, ha, hfa⟩
    obtain ⟨a1, a2⟩ := a
    rcases a2 with _ | ⟨x, _ | ⟨y, ys⟩⟩
    · simp at hfa
    · simp only [Option.some.injEq] at hfa
      rw [← hfa] at hq1
      simp only at hq1
      rw [hq1] at ha
      have := keys_nodup_val_eq hnd ha hmem
      simp at this
    · simp only [Option.some.injEq] at hfa
      rw [← hfa] at hq1
      simp only at hq1
      rw [hq1] at ha
      have := keys_nodup_val_eq hnd ha hmem
      simp at this

theorem claim_C2_witness :
    "a" ∉ List.map Prod.fst [("b", ParsedValue.single ("eq", "1"))] :=
  claim_C2.2.2 ⟨[("a", []), ("b", [("eq", "1")])], some "b"⟩
    [("b", ParsedValue.single ("eq", "1"))] "a" rfl (by simp) (by simp)



/-- C3: selecting the already-current field changes no state (so the two
example chains are equal), and selecting any other name installs a fresh
empty filter list under that name and makes it current — dropping
previously stored filters, as the drop example shows. -/
theorem claim_C3 :
    (∀ (s : DentalinkQueryFactory) (n : String),
      s._last_field = some n → s.field n = s) ∧
    (∀ (s : DentalinkQueryFactory) (n : String),
      s._last_field ≠ some n →
        s.field n = ⟨dictSet s._query n [], some n⟩ ∧
        dictGet (s.field n)._query n = some []) ∧
    c3_reselect_same = c3_add_twice ∧
    c3_reselect_drop = .ok [("bar", ParsedValue.single ("eq", "2"))] := by
  refine ⟨?_, ?_, rfl, rfl⟩
  · intro s n h
    simp [DentalinkQueryFactory.field, h]
  · intro s n h
    have heq : s.field n = ⟨dictSet s._query n [], some n⟩ := by
      simp [DentalinkQueryFactory.field, h, DentalinkQueryFactory._set_field]
    exact ⟨heq, by rw [heq]; exact dictGet_dictSet_self _ _ _⟩

theorem claim_C3_witness :
    ((⟨[("foo", [])], some "foo"⟩ : DentalinkQueryFactory).field "foo" =
      ⟨[("foo", [])], some "foo"⟩) ∧
    ((DentalinkQueryFactory.init none).field "x" =
        ⟨dictSet (DentalinkQueryFactory.init none)._query "x" [], some "x"⟩ ∧
      dictGet ((DentalinkQueryFactory.init none).field "x")._query "x" =
        some []) :=
  ⟨claim_C3.1 ⟨[("foo", [])], some "foo"⟩ "foo" rfl,
   claim_C3.2.1 (DentalinkQueryFactory.init none) "x" (by decide)⟩

/-- C4: each of the seven operator methods, called with any value
(including the absent value `none`) on a builder whose cursor was never
set, yields the query usage error. -/
theorem claim_C4 :
    ∀ s : DentalinkQueryFactory, s._last_field = none →
    ∀ (v : Option QValue) (fmt : String),
      s.eq v fmt =
        .error
          ⟨"Debes establecer un campo usando .field() antes de agregar un filtro"⟩ ∧
      s.neq v fmt =
        .error
          ⟨"Debes establecer un campo usando .field() antes de agregar un filtro"⟩ ∧
      s.gt v fmt =
        .error
          ⟨"Debes establecer un campo usando .field() antes de agregar un filtro"⟩ ∧
      s.gte v fmt =
        .error
          ⟨"Debes establecer un campo usando .field() antes de agregar un filtro"⟩ ∧
      s.lt v fmt =
        .error
          ⟨"Debes establecer un campo usando .field() antes de agregar un filtro"⟩ ∧
      s.lte v fmt =
        .error
          ⟨"Debes establecer un campo usando .field() antes de agregar un filtro"⟩ ∧
      s.lk v fmt =
        .error
          ⟨"Debes establecer un campo usando .field() antes de agregar un filtro"⟩ := by
  intro s h v fmt
  refine ⟨?_, ?_, ?_, ?_, ?_, ?_, ?_⟩ <;>
    simp [DentalinkQueryFactory.eq, DentalinkQueryFactory.neq,
      DentalinkQueryFactory.gt, DentalinkQueryFactory.gte,
      DentalinkQueryFactory.lt, DentalinkQueryFactory.lte,
      DentalinkQueryFactory.lk, DentalinkQueryFactory._add_filter, h]

theorem claim_C4_witness :
    (DentalinkQueryFactory.init none).eq none "%Y-%m-%d" =
      .error
        ⟨"Debes establecer un campo usando .field() antes de agregar un filtro"⟩ :=
  (claim_C4 (DentalinkQueryFactory.init none) rfl none "%Y-%m-%d").1

/-- C5 counterexample: on a builder with no field ever selected, an
operator call with the absent value raises the usage error instead of
returning the builder unchanged — so the claim's "for every builder
state" quantification fails. -/
theorem claim_C5_counterexample :
    (DentalinkQueryFactory.init none).eq none "%Y-%m-%d" =
      .error
        ⟨"Debes establecer un campo usando .field() antes de agregar un filtro"⟩ ∧
    ¬ (DentalinkQueryFactory.init none).eq none "%Y-%m-%d" =
        .ok (DentalinkQueryFactory.init none) := by
  constructor
  · rfl
  · intro h
    simp [DentalinkQueryFactory.init, DentalinkQueryFactory.eq,
      DentalinkQueryFactory._add_filter] at h

/-- C5 (amended): on every builder state with a field currently selected,
each of the seven operator methods called with the absent value `none`
appends nothing and returns the builder unchanged. -/
theorem claim_C5 :
    ∀ (s : DentalinkQueryFactory) (f : String), s._last_field = some f →
    ∀ fmt : String,
      s.eq none fmt = .ok s ∧ s.neq none fmt = .ok s ∧
      s.gt none fmt = .ok s ∧ s.gte none fmt = .ok s ∧
      s.lt none fmt = .ok s ∧ s.lte none fmt = .ok s ∧
      s.lk none fmt = .ok s := by
  intro s f h fmt
  refine ⟨?_, ?_, ?_, ?_, ?_, ?_, ?_⟩ <;>
    simp [DentalinkQueryFactory.eq, DentalinkQueryFactory.neq,
      DentalinkQueryFactory.gt, DentalinkQueryFactory.gte,
      DentalinkQueryFactory.lt, DentalinkQueryFactory.lte,
      DentalinkQueryFactory.lk, DentalinkQueryFactory._add_filter, h]

theorem claim_C5_witness :
    ((⟨[("foo", [])], some "foo"⟩ : DentalinkQueryFactory).eq none "%Y-%m-%d" =
      .ok ⟨[("foo", [])], some "foo"⟩) ∧
    ((⟨[("foo", [])], some "foo"⟩ : DentalinkQueryFactory).lk none "%Y-%m-%d" =
      .ok ⟨[("foo", [])], some "foo"⟩) :=
  ⟨(claim_C5 ⟨[("foo", [])], some "foo"⟩ "foo" rfl "%Y-%m-%d").1,
   (claim_C5 ⟨[("foo", [])], some "foo"⟩ "foo" rfl "%Y-%m-%d").2.2.2.2.2.2⟩

/-- C8 counterexample: the empty string is a field name on which the
constructor and an immediate field selection differ — Python's
`if field:` truthiness skips `_set_field` for `""`, while
`field("")` installs it. -/
theorem claim_C8_counterexample :
    DentalinkQueryFactory.init (some "") ≠
      (DentalinkQueryFactory.init none).field "" := by
  decide

/-- C8 (amended): for every non-empty field name, constructing the
builder with that initial field yields exactly the state of constructing
it with no initial field and then selecting the field. -/
theorem claim_C8 :
    ∀ f : String, f ≠ "" →
      DentalinkQueryFactory.init (some f) =
        (DentalinkQueryFactory.init none).field f := by
  intro f h
  simp [DentalinkQueryFactory.init, DentalinkQueryFactory.field,
    DentalinkQueryFactory._set_field, h, dictSet]

theorem claim_C8_witness :
    DentalinkQueryFactory.init (some "fecha") =
      (DentalinkQueryFactory.init none).field "fecha" :=
  claim_C8 "fecha" (by decide)

/-- C9: with a field selected, every operator method stringifies the
boolean `true` to `"1"` and `false` to `"0"` and appends the entry to the
current field's list (`false` is appended, not dropped). -/
theorem claim_C9 :
    ∀ (s : DentalinkQueryFactory) (f fmt : String), s._last_field = some f →
      s.eq (some (QValue.bool true)) fmt =
        .ok ⟨dictAppend s._query f ("eq", "1"), some f⟩ ∧
      s.eq (some (QValue.bool false)) fmt =
        .ok ⟨dictAppend s._query f ("eq", "0"), some f⟩ ∧
      s.neq (some (QValue.bool true)) fmt =
        .ok ⟨dictAppend s._query f ("neq", "1"), some f⟩ ∧
      s.neq (some (QValue.bool false)) fmt =
        .ok ⟨dictAppend s._query f ("neq", "0"), some f⟩ ∧
      s.gt (some (QValue.bool true)) fmt =
        .ok ⟨dictAppend s._query f ("gt", "1"), some f⟩ ∧
      s.gt (some (QValue.bool false)) fmt =
        .ok ⟨dictAppend s._query f ("gt", "0"), some f⟩ ∧
      s.gte (some (QValue.bool true)) fmt =
        .ok ⟨dictAppend s._query f ("gte", "1"), some f⟩ ∧
      s.gte (some (QValue.bool false)) fmt =
        .ok ⟨dictAppend s._query f ("gte", "0"), some f⟩ ∧
      s.lt (some (QValue.bool true)) fmt =
        .ok ⟨dictAppend s._query f ("lt", "1"), some f⟩ ∧
      s.lt (some (QValue.bool false)) fmt =
        .ok ⟨dictAppend s._query f ("lt", "0"), some f⟩ ∧
      s.lte (some (QValue.bool true)) fmt =
        .ok ⟨dictAppend s._query f ("lte", "1"), some f⟩ ∧
      s.lte (some (QValue.bool false)) fmt =
        .ok ⟨dictAppend s._query f ("lte", "0"), some f⟩ ∧
      s.lk (some (QValue.bool true)) fmt =
        .ok ⟨dictAppend s._query f ("lk", "1"), some f⟩ ∧
      s.lk (some (QValue.bool false)) fmt =
        .ok ⟨dictAppend s._query f ("lk", "0"), some f⟩ := by
  intro s f fmt h
  obtain ⟨q, lf⟩ := s
  simp only [Option.some.injEq] at h ⊢
  subst h
  refine ⟨?_, ?_, ?_, ?_, ?_, ?_, ?_, ?_, ?_, ?_, ?_, ?_, ?_, ?_⟩ <;> rfl

theorem claim_C9_witness :
    (⟨[("foo", [])], some "foo"⟩ : DentalinkQueryFactory).eq
        (some (QValue.bool false)) "%Y-%m-%d" =
      .ok ⟨dictAppend [("foo", [])] "foo" ("eq", "0"), some "foo"⟩ :=
  (claim_C9 ⟨[("foo", [])], some "foo"⟩ "foo" "%Y-%m-%d" rfl).2.1

/-- C6 counterexample: a non-200 response whose body does not decode as
JSON is surfaced with the message `"Error inesperado: "` followed by the
raw text — not the raw response text alone, as the claim states. -/
theorem claim_C6_counterexample :
    _request ⟨500, "boom", none⟩ =
      .httpException 500 (.str "Error inesperado: boom") ∧
    "Error inesperado: boom" ≠ "boom" := by
  exact ⟨rfl, by decide⟩

/-- C6 (amended): a 200 response returns its decoded JSON body; a non-200
response with a JSON body carrying `error.message` raises an HTTP error
with that status code and message (e.g. 404 with "not found"); a
non-200 response whose body cannot be decoded raises an HTTP error with
the status code and a message embedding the raw response text, prefixed
with `"Error inesperado: "`. -/
theorem claim_C6 :
    (∀ (r : HttpResponse) (j : Json),
      r.status_code = 200 → r.json = some j → _request r = .ok j) ∧
    (∀ (r : HttpResponse) (j : Json) (m : String),
      r.status_code ≠ 200 → r.json = some j →
      (j.getItem "error").bind (fun e => e.getItem "message") =
        some (.str m) →
      _request r = .httpException r.status_code (.str m)) ∧
    (∀ r : HttpResponse,
      r.status_code ≠ 200 → r.json = none →
      _request r =
        .httpException r.status_code
          (.str ("Error inesperado: " ++ r.text))) ∧
    _request
        ⟨404, "",
          some (.obj [("error", .obj [("message", .str "not found")])])⟩ =
      .httpException 404 (.str "not found") := by
  refine ⟨?_, ?_, ?_, rfl⟩
  · intro r j h200 hj
    simp [_request, h200, hj]
  · intro r j m hne hj hm
    simp [_request, hne, hj, hm]
  · intro r hne hj
    simp [_request, hne, hj]

theorem claim_C6_witness :
    (_request ⟨200, "", some (.num 7)⟩ = .ok (.num 7)) ∧
    (_request
        ⟨404, "x",
          some (.obj [("error", .obj [("message", .str "not found")])])⟩ =
      .httpException 404 (.str "not found")) ∧
    (_request ⟨503, "down", none⟩ =
      .httpException 503 (.str ("Error inesperado: " ++ "down"))) :=
  ⟨claim_C6.1 ⟨200, "", some (.num 7)⟩ (.num 7) rfl rfl,
   claim_C6.2.1
     ⟨404, "x", some (.obj [("error", .obj [("message", .str "not found")])])⟩
     (.obj [("error", .obj [("message", .str "not found")])]) "not found"
     (by decide) rfl rfl,
   claim_C6.2.2.1 ⟨503, "down", none⟩ (by decide) rfl⟩

/-- C7: the PUT body of `actualizar_cita_segun_id` contains `duracion`,
`id_estado` and `comentarios` exactly when the corresponding argument is
provided and truthy (zero and the empty string are omitted), and contains
`flag_notificar_anulacion` — always with value `true` — exactly when the
flag argument is the truthy `some true`. -/
theorem claim_C7 :
    ∀ (duracion id_estado : Option Int) (comentarios : Option String)
      (flag_notificar_anulacion : Option Bool),
      dictGet
          (actualizar_cita_data duracion id_estado comentarios
            flag_notificar_anulacion) "duracion" =
        (match duracion with
         | some n => if n ≠ 0 then some (BodyValue.int n) else none
         | none => none) ∧
      dictGet
          (actualizar_cita_data duracion id_estado comentarios
            flag_notificar_anulacion) "id_estado" =
        (match id_estado with
         | some n => if n ≠ 0 then some (BodyValue.int n) else none
         | none => none) ∧
      dictGet
          (actualizar_cita_data duracion id_estado comentarios
            flag_notificar_anulacion) "comentarios" =
        (match comentarios with
         | some c => if c ≠ "" then some (BodyValue.str c) else none
         | none => none) ∧
      dictGet
          (actualizar_cita_data duracion id_estado comentarios
            flag_notificar_anulacion) "flag_notificar_anulacion" =
        (if flag_notificar_anulacion = some true
         then some (BodyValue.bool true) else none) := by
  intro duracion id_estado comentarios flag
  rcases duracion with _ | n <;> rcases id_estado with _ | m <;>
    rcases comentarios with _ | c <;> rcases flag with _ | b <;>
    (try cases b) <;>
    refine ⟨?_, ?_, ?_, ?_⟩ <;>
    simp only [actualizar_cita_data] <;>
    first
      | rfl
      | (split_ifs <;> first | rfl | simp_all)



theorem except_bind_ok {ε α β : Type} (a : α) (f : α → Except ε β) :
    ((Except.ok a : Except ε α) >>= f) = f a := rfl

theorem _cast_value_to_str_some_ok (v : QValue) (fmt : String) :
    ∃ sv, DentalinkQueryFactory._cast_value_to_str v (some fmt) = .ok sv := by
  cases v <;> exact ⟨_, rfl⟩

theorem _add_filter_ok {s : DentalinkQueryFactory} {f : String}
    (h : s._last_field = some f) (name : String) (v : Option QValue)
    (fmt : String) :
    ∃ s2, s._add_filter name v fmt = .ok s2 ∧ s2._last_field = some f ∧
      s2._query.length = s._query.length := by
  cases v with
  | none =>
    refine ⟨s, ?_, h, rfl⟩
    simp [DentalinkQueryFactory._add_filter, h]
  | some v =>
    obtain ⟨sv, hsv⟩ := _cast_value_to_str_some_ok v fmt
    refine ⟨⟨dictAppend s._query f (name, sv), some f⟩, ?_, rfl, ?_⟩
    · simp [DentalinkQueryFactory._add_filter, h, hsv, except_bind_ok]
    · simp [dictAppend]

theorem field_spec (s : DentalinkQueryFactory) (n : String) :
    (s.field n)._last_field = some n ∧
      s._query.length ≤ (s.field n)._query.length := by
  by_cases h : s._last_field = some n
  · refine ⟨?_, ?_⟩ <;> simp [DentalinkQueryFactory.field, h]
  · constructor
    · simp [DentalinkQueryFactory.field, h, DentalinkQueryFactory._set_field]
    · simp only [DentalinkQueryFactory.field, if_neg h,
        DentalinkQueryFactory._set_field]
      unfold dictSet
      split
      · simp
      · simp

theorem parse_ok_of_length_ne_zero {s : DentalinkQueryFactory}
    (h : ¬ s._query.length = 0) : ∃ out, s.parse = .ok out :=
  ⟨s._query.filterMap fun kv =>
      match kv.2 with
      | [] => none
      | [e] => some (kv.1, ParsedValue.single e)
      | es => some (kv.1, ParsedValue.list es),
    by simp only [DentalinkQueryFactory.parse, if_neg h]⟩

/-- C10: every filter-taking client method builds its query with an
initial field preselected, so serialization never hits the
"no field ever selected" usage error for any argument combination; with
all optional arguments absent the serialized filter is empty and the
request URI is the bare base URL plus endpoint, with no query string. -/
theorem claim_C10 :
    (∀ (sd ed : Option Datetime) (isuc iest : Option Int), ∃ out,
      (obtener_citas_query sd ed isuc iest >>=
        DentalinkQueryFactory.parse) = .ok out) ∧
    (∀ (nom : Option String) (res anu uso hab : Option Bool), ∃ out,
      (obtener_estados_de_cita_query nom res anu uso hab >>=
        DentalinkQueryFactory.parse) = .ok out) ∧
    (∀ (nom : Option String) (hab : Option Bool), ∃ out,
      (obtener_sucursales_query nom hab >>=
        DentalinkQueryFactory.parse) = .ok out) ∧
    (obtener_citas_query none none none none >>=
        DentalinkQueryFactory.parse) = .ok [] ∧
    (obtener_estados_de_cita_query none none none none none >>=
        DentalinkQueryFactory.parse) = .ok [] ∧
    (obtener_sucursales_query none none >>=
        DentalinkQueryFactory.parse) = .ok [] ∧
    (∀ (encode : List (String × ParsedValue) → String) (url endpoint : String),
      make_uri encode url endpoint (some []) = url ++ endpoint) := by
  refine ⟨?_, ?_, ?_, rfl, rfl, rfl, fun encode url endpoint => rfl⟩
  · intro sd ed isuc iest
    obtain ⟨s1, h1, hlf1, hlen1⟩ :=
      _add_filter_ok (s := DentalinkQueryFactory.init (some "fecha")) rfl
        "gte" (sd.map QValue.dt) "%Y-%m-%d"
    obtain ⟨s2, h2, hlf2, hlen2⟩ :=
      _add_filter_ok hlf1 "lte" (ed.map QValue.dt) "%Y-%m-%d"
    obtain ⟨hlf3, hlen3⟩ := field_spec s2 "id_sucursal"
    obtain ⟨s4, h4, hlf4, hlen4⟩ :=
      _add_filter_ok hlf3 "eq" (isuc.map QValue.int) "%Y-%m-%d"
    obtain ⟨hlf5, hlen5⟩ := field_spec s4 "id_estado"
    obtain ⟨s6, h6, hlf6, hlen6⟩ :=
      _add_filter_ok hlf5 "eq" (iest.map QValue.int) "%Y-%m-%d"
    have hq : obtener_citas_query sd ed isuc iest = .ok s6 := by
      simp only [obtener_citas_query, DentalinkQueryFactory.gte,
        DentalinkQueryFactory.lte, DentalinkQueryFactory.eq]
      rw [h1, except_bind_ok, h2, except_bind_ok, h4, except_bind_ok, h6]
      rfl
    have hbase : (DentalinkQueryFactory.init (some "fecha"))._query.length = 1 :=
      rfl
    obtain ⟨out, hout⟩ := parse_ok_of_length_ne_zero (s := s6) (by omega)
    exact ⟨out, by rw [hq, except_bind_ok, hout]⟩
  · intro nom res anu uso hab
    obtain ⟨s1, h1, hlf1, hlen1⟩ :=
      _add_filter_ok (s := DentalinkQueryFactory.init (some "nombre")) rfl
        "eq" (nom.map QValue.str) "%Y-%m-%d"
    obtain ⟨hlf2, hlen2⟩ := field_spec s1 "reservado"
    obtain ⟨s3, h3, hlf3, hlen3⟩ :=
      _add_filter_ok hlf2 "eq" (res.map QValue.bool) "%Y-%m-%d"
    obtain ⟨hlf4, hlen4⟩ := field_spec s3 "anulacion"
    obtain ⟨s5, h5, hlf5, hlen5⟩ :=
      _add_filter_ok hlf4 "eq" (anu.map QValue.bool) "%Y-%m-%d"
    obtain ⟨hlf6, hlen6⟩ := field_spec s5 "uso_interno"
    obtain ⟨s7, h7, hlf7, hlen7⟩ :=
      _add_filter_ok hlf6 "eq" (uso.map QValue.bool) "%Y-%m-%d"
    obtain ⟨hlf8, hlen8⟩ := field_spec s7 "habilitado"
    obtain ⟨s9, h9, hlf9, hlen9⟩ :=
      _add_filter_ok hlf8 "eq" (hab.map QValue.bool) "%Y-%m-%d"
    have hq : obtener_estados_de_cita_query nom res anu uso hab = .ok s9 := by
      simp only [obtener_estados_de_cita_query, DentalinkQueryFactory.eq]
      rw [h1, except_bind_ok, h3, except_bind_ok, h5, except_bind_ok, h7,
        except_bind_ok, h9]
      rfl
    have hbase :
        (DentalinkQueryFactory.init (some "nombre"))._query.length = 1 := rfl
    obtain ⟨out, hout⟩ := parse_ok_of_length_ne_zero (s := s9) (by omega)
    exact ⟨out, by rw [hq, except_bind_ok, hout]⟩
  · intro nom hab
    obtain ⟨s1, h1, hlf1, hlen1⟩ :=
      _add_filter_ok (s := DentalinkQueryFactory.init (some "nombre")) rfl
        "eq" (nom.map QValue.str) "%Y-%m-%d"
    obtain ⟨hlf2, hlen2⟩ := field_spec s1 "habilitada"
    obtain ⟨s3, h3, hlf3, hlen3⟩ :=
      _add_filter_ok hlf2 "eq" (hab.map QValue.bool) "%Y-%m-%d"
    have hq : obtener_sucursales_query nom hab = .ok s3 := by
      simp only [obtener_sucursales_query, DentalinkQueryFactory.eq]
      rw [h1, except_bind_ok, h3]
      rfl
    have hbase :
        (DentalinkQueryFactory.init (some "nombre"))._query.length = 1 := rfl
    obtain ⟨out, hout⟩ := parse_ok_of_length_ne_zero (s := s3) (by omega)
    exact ⟨out, by rw [hq, except_bind_ok, hout]⟩

end Dentalink
